import Mathlib

/-!
The browser-side service layer of moviesList: a shallow embedding of
`src/spa/service/AuthService.js` and `src/spa/service/FilmeService.js`.

Every exported function is an `async` function of the same shape: build a
request, `await fetch`, branch on `response.ok`, decode the body or throw,
and in the `catch` block log with `console.error` and rethrow.  The embedding
keeps that shape.  The things the functions do to the outside world (one call
of `fetch`, one call of `response.json()`, lines on the console) are recorded
in an event log, and the way the promise settles is an `Except` value.

What the platform does is a parameter `Env`: `JSON.stringify` and the
behaviour of `fetch` are arbitrary functions, so every theorem holds for every
serialiser and every transport.  `JSON.stringify` may return a text, return
`undefined`, or throw; it is called inside the `try` block, as an argument of
`fetch`, so when it throws, `fetch` is never called.

Arguments that end up in a body are arbitrary JavaScript values; a `token` or
an `id` is a string, so that the template literal it is placed in is a
concatenation.
-/

namespace MoviesList

/-! ## Values -/

/-- JavaScript values, by the kinds that matter to `JSON.stringify`: besides
JSON data there are `undefined`, BigInt values, and objects that contain
themselves (told apart by a tag).  Numbers are integers here; no exported
function looks inside a value. -/
inductive JsVal where
  | undefined
  | null
  | bool (b : Bool)
  | num (n : Int)
  | bigint (n : Int)
  | str (s : String)
  | arr (items : List JsVal)
  | obj (fields : List (String × JsVal))
  | circular (tag : Nat)

/-- A thrown value: the `name` and `message` of a JavaScript error object. -/
structure JsError where
  name : String
  message : String
deriving DecidableEq, Repr

/-- The value `new Error(message)`. -/
def newError (message : String) : JsError :=
  { name := "Error", message := message }

/-- The arguments of one `fetch(url, options)` call.  An option that the
options literal leaves out is `none` (for `headers`: the empty list). -/
structure Request where
  url : String
  method : String
  headers : List (String × String) := []
  body : Option String := none
  credentials : Option String := none
deriving DecidableEq, Repr

/-- What the functions use of a `Response`: `ok`, `statusText`, and the way
`response.json()` settles (the decoded body, or the error it rejects with). -/
structure Response where
  ok : Bool
  statusText : String
  json : Except JsError JsVal

/-- The platform.  `JSON.stringify` applied to a value throws (`.error`),
returns `undefined` (`.ok none`) or returns a text (`.ok (some text)`).  The
transport either rejects with an error or resolves with a response. -/
structure Env where
  stringify : JsVal → Except JsError (Option String)
  fetch : Request → Except JsError Response

/-! ## Effects -/

/-- What a run does to the outside world, in order. -/
inductive Event where
  | fetch (req : Request)
  | json
  | consoleError (label : String) (error : JsError)
  | consoleDebug (label : String) (data : JsVal)

/-- A finished run: the events it produced and how the promise settled
(`.ok v`: resolved with `v`; `.error e`: rejected with `e`). -/
structure Run (α : Type) where
  log : List Event
  outcome : Except JsError α

/-- An asynchronous computation: given the platform it runs to completion. -/
def Js (α : Type) : Type := Env → Run α

namespace Js

/-- A computation that resolves at once. -/
def pure {α : Type} (a : α) : Js α :=
  fun _ => { log := [], outcome := .ok a }

/-- Sequencing: the second part runs only when the first one resolved. -/
def bind {α β : Type} (m : Js α) (f : α → Js β) : Js β :=
  fun env =>
    match m env with
    | { log := l, outcome := .error e } => { log := l, outcome := .error e }
    | { log := l, outcome := .ok a } =>
      match f a env with
      | { log := l2, outcome := o } => { log := l ++ l2, outcome := o }

instance : Monad Js where
  pure := Js.pure
  bind := Js.bind

/-- The statement `throw e`. -/
def raise {α : Type} (e : JsError) : Js α :=
  fun _ => { log := [], outcome := .error e }

/-- The statement `try { body } catch (error) { handler }`. -/
def tryCatch {α : Type} (body : Js α) (handler : JsError → Js α) : Js α :=
  fun env =>
    match body env with
    | { log := l, outcome := .ok a } => { log := l, outcome := .ok a }
    | { log := l, outcome := .error e } =>
      match handler e env with
      | { log := l2, outcome := o } => { log := l ++ l2, outcome := o }

end Js

/-- The expression `JSON.stringify(value)`: it yields a text or `undefined`,
or throws. -/
def stringify (value : JsVal) : Js (Option String) :=
  fun env => { log := [], outcome := env.stringify value }

/-- The expression `await fetch(...)`. -/
def fetch (req : Request) : Js Response :=
  fun env => { log := [Event.fetch req], outcome := env.fetch req }

/-- The expression `await response.json()`. -/
def Response.readJson (response : Response) : Js JsVal :=
  fun _ => { log := [Event.json], outcome := response.json }

/-- The statement `console.error(label, error)`. -/
def consoleError (label : String) (error : JsError) : Js Unit :=
  fun _ => { log := [Event.consoleError label error], outcome := .ok () }

/-- The statement `console.debug(label, data)`. -/
def consoleDebug (label : String) (data : JsVal) : Js Unit :=
  fun _ => { log := [Event.consoleDebug label data], outcome := .ok () }

/-! ## AuthService.js -/

/-- The function `login(email, senha)`. -/
def login (email senha : JsVal) : Js JsVal :=
  Js.tryCatch
    (do
      let response ← fetch {
        url := "http://localhost:8081/auth/login"
        method := "POST"
        headers := [("Content-Type", "application/json")]
        body := (← stringify (.obj [("email", email), ("senha", senha)])) }
      if !response.ok then
        Js.raise (newError ("Error during login: " ++ response.statusText))
      let data ← response.readJson
      return data)
    (fun error => do
      consoleError "Error during login:" error
      Js.raise error)

/-- The function `register(nome, email, cpf, senha)`. -/
def register (nome email cpf senha : JsVal) : Js JsVal :=
  Js.tryCatch
    (do
      let response ← fetch {
        url := "http://localhost:8081/auth/register"
        method := "POST"
        headers := [("Content-Type", "application/json")]
        body := (← stringify
          (.obj [("nome", nome), ("email", email), ("cpf", cpf), ("senha", senha)])) }
      if !response.ok then
        Js.raise (newError ("Error during register: " ++ response.statusText))
      let data ← response.readJson
      return data)
    (fun error => do
      consoleError "Error during register:" error
      Js.raise error)

/-- The function `resetPassword(token, newPassword)`. -/
def resetPassword (token : String) (newPassword : JsVal) : Js JsVal :=
  Js.tryCatch
    (do
      let response ← fetch {
        url := "/auth/reset-password?token=" ++ token
        method := "POST"
        headers := [("Content-Type", "application/json")]
        body := (← stringify (.obj [("newPassword", newPassword)])) }
      if !response.ok then
        Js.raise (newError ("Erro ao redefinir senha: " ++ response.statusText))
      return (← response.readJson))
    (fun error => do
      consoleError "Erro ao redefinir senha:" error
      Js.raise error)

/-! ## FilmeService.js -/

/-- The function `getAllFilmes()`. -/
def getAllFilmes : Js JsVal :=
  Js.tryCatch
    (do
      let response ← fetch {
        url := "http://localhost:8081/api/filmes"
        method := "GET"
        credentials := some "include" }
      if !response.ok then
        Js.raise (newError ("Erro em pegar todos os filmes: " ++ response.statusText))
      let data ← response.readJson
      return data)
    (fun error => do
      consoleError "Erro em pegar todos os filmes:" error
      Js.raise error)

/-- The function `createFilme(filmeDTO)`. -/
def createFilme (filmeDTO : JsVal) : Js JsVal :=
  Js.tryCatch
    (do
      let response ← fetch {
        url := "http://localhost:8081/api/filmes"
        method := "POST"
        headers := [("Content-Type", "application/json")]
        body := (← stringify filmeDTO)
        credentials := some "include" }
      if !response.ok then
        Js.raise (newError ("Erro criando o filme: " ++ response.statusText))
      let data ← response.readJson
      consoleDebug "Resposta Servidor:" data
      return data)
    (fun error => do
      consoleError "Erro criando o filme:" error
      Js.raise error)

/-- The function `getFilmeById(id)`. -/
def getFilmeById (id : String) : Js JsVal :=
  Js.tryCatch
    (do
      let response ← fetch {
        url := "http://localhost:8081/api/filmes/" ++ id
        method := "GET"
        credentials := some "include" }
      if !response.ok then
        Js.raise (newError ("Error fetching filme: " ++ response.statusText))
      let data ← response.readJson
      return data)
    (fun error => do
      consoleError "Error fetching filme:" error
      Js.raise error)

/-- The function `updateFilme(id, filmeDTO)`. -/
def updateFilme (id : String) (filmeDTO : JsVal) : Js JsVal :=
  Js.tryCatch
    (do
      let response ← fetch {
        url := "http://localhost:8081/api/filmes/" ++ id
        method := "PUT"
        headers := [("Content-Type", "application/json")]
        body := (← stringify filmeDTO)
        credentials := some "include" }
      if !response.ok then
        Js.raise (newError ("Erro em pegar fiilme por id: " ++ response.statusText))
      let data ← response.readJson
      return data)
    (fun error => do
      consoleError "Erro em pegar fiilme por id:" error
      Js.raise error)

/-- The function `deleteFilme(id)`. -/
def deleteFilme (id : String) : Js Unit :=
  Js.tryCatch
    (do
      let response ← fetch {
        url := "http://localhost:8081/api/filmes/" ++ id
        method := "DELETE"
        credentials := some "include" }
      if !response.ok then
        Js.raise (newError ("Erro delentando filme: " ++ response.statusText)))
    (fun error => do
      consoleError "Erro delentando filme:" error
      Js.raise error)

/-! ## The eight operations as one family -/

/-- One call of an exported function, with its arguments. -/
inductive Call where
  | login (email senha : JsVal)
  | register (nome email cpf senha : JsVal)
  | resetPassword (token : String) (newPassword : JsVal)
  | getAllFilmes
  | createFilme (filmeDTO : JsVal)
  | getFilmeById (id : String)
  | updateFilme (id : String) (filmeDTO : JsVal)
  | deleteFilme (id : String)

/-- Forget the type of the resolved value: `some B` is a run that resolved
with the value `B`, `none` a run that resolved with no value. -/
def Run.resolved {α : Type} (value : α → Option JsVal) (r : Run α) : Run (Option JsVal) :=
  { log := r.log
    outcome :=
      match r.outcome with
      | .ok a => .ok (value a)
      | .error e => .error e }

/-- Run a call on a platform. -/
def exec (env : Env) : Call → Run (Option JsVal)
  | .login email senha => (login email senha env).resolved some
  | .register nome email cpf senha => (register nome email cpf senha env).resolved some
  | .resetPassword token newPassword => (resetPassword token newPassword env).resolved some
  | .getAllFilmes => (getAllFilmes env).resolved some
  | .createFilme filmeDTO => (createFilme filmeDTO env).resolved some
  | .getFilmeById id => (getFilmeById id env).resolved some
  | .updateFilme id filmeDTO => (updateFilme id filmeDTO env).resolved some
  | .deleteFilme id => (deleteFilme id env).resolved (fun _ => none)

/-! ## Observations on a run -/

/-- The requests handed to `fetch`, in order. -/
def Run.requests {α : Type} (r : Run α) : List Request :=
  r.log.filterMap fun
    | .fetch req => some req
    | _ => none

/-- The `console.error` lines, in order: label and logged error. -/
def Run.errorLines {α : Type} (r : Run α) : List (String × JsError) :=
  r.log.filterMap fun
    | .consoleError label error => some (label, error)
    | _ => none

/-- How many times `response.json()` was called. -/
def Run.bodyReads {α : Type} (r : Run α) : Nat :=
  r.log.countP fun
    | .json => true
    | _ => false

/-- The text `part` occurs in the text `text`. -/
def Mentions (text part : String) : Prop :=
  part.data <:+: text.data

instance (text part : String) : Decidable (Mentions text part) :=
  inferInstanceAs (Decidable (part.data <:+: text.data))

/-! ## The fixed texts of each operation, as written in the source -/

/-- The text in front of `response.statusText` in the thrown `Error`.  The
text of `updateFilme` is the one the source has, although it speaks of getting
a movie by id. -/
def Call.description : Call → String
  | .login .. => "Error during login: "
  | .register .. => "Error during register: "
  | .resetPassword .. => "Erro ao redefinir senha: "
  | .getAllFilmes => "Erro em pegar todos os filmes: "
  | .createFilme .. => "Erro criando o filme: "
  | .getFilmeById .. => "Error fetching filme: "
  | .updateFilme .. => "Erro em pegar fiilme por id: "
  | .deleteFilme .. => "Erro delentando filme: "

/-- The first argument of `console.error` in the `catch` block. -/
def Call.logLabel : Call → String
  | .login .. => "Error during login:"
  | .register .. => "Error during register:"
  | .resetPassword .. => "Erro ao redefinir senha:"
  | .getAllFilmes => "Erro em pegar todos os filmes:"
  | .createFilme .. => "Erro criando o filme:"
  | .getFilmeById .. => "Error fetching filme:"
  | .updateFilme .. => "Erro em pegar fiilme por id:"
  | .deleteFilme .. => "Erro delentando filme:"

/-- The operations that return the decoded body: all but `deleteFilme`. -/
def Call.returnsBody : Call → Bool
  | .deleteFilme .. => false
  | _ => true

/-- The operations whose options literal has `credentials: "include"`, as the
specification lists them: the five movie operations. -/
def Call.credentialed : Call → Bool
  | .login .. => false
  | .register .. => false
  | .resetPassword .. => false
  | _ => true

/-- The fixed host of the backend named in the specification. -/
def baseUrl : String := "http://localhost:8081"

/-- The verb and the target of each operation as the specification's endpoint
list gives them. -/
def Call.specEndpoint : Call → String × String
  | .login .. => ("POST", baseUrl ++ "/auth/login")
  | .register .. => ("POST", baseUrl ++ "/auth/register")
  | .resetPassword token _ => ("POST", "/auth/reset-password?token=" ++ token)
  | .getAllFilmes => ("GET", baseUrl ++ "/api/filmes")
  | .createFilme .. => ("POST", baseUrl ++ "/api/filmes")
  | .getFilmeById id => ("GET", baseUrl ++ "/api/filmes/" ++ id)
  | .updateFilme id _ => ("PUT", baseUrl ++ "/api/filmes/" ++ id)
  | .deleteFilme id => ("DELETE", baseUrl ++ "/api/filmes/" ++ id)

/-- The value an operation hands to `JSON.stringify`; `none` for the three
operations that send no body. -/
def Call.payload : Call → Option JsVal
  | .login email senha => some (.obj [("email", email), ("senha", senha)])
  | .register nome email cpf senha =>
    some (.obj [("nome", nome), ("email", email), ("cpf", cpf), ("senha", senha)])
  | .resetPassword _ newPassword => some (.obj [("newPassword", newPassword)])
  | .getAllFilmes => none
  | .createFilme filmeDTO => some filmeDTO
  | .getFilmeById _ => none
  | .updateFilme _ filmeDTO => some filmeDTO
  | .deleteFilme _ => none

/-- How building the body of a call ends: `.error e` when `JSON.stringify`
throws `e`, otherwise the `body` option of the request (`none` when there is
no body or `JSON.stringify` returned `undefined`). -/
def Call.serialised (env : Env) (c : Call) : Except JsError (Option String) :=
  match c.payload with
  | none => .ok none
  | some value => env.stringify value

/-! ## The common shape of a run

Used in the proofs only: every operation is one instance of the same
exchange, and `exec_eq_exchange` below proves it from the code. -/

/-- The first argument of `fetch` and its options, per operation, given the
`body` option. -/
def Call.request (body : Option String) : Call → Request
  | .login .. =>
    { url := "http://localhost:8081/auth/login"
      method := "POST"
      headers := [("Content-Type", "application/json")]
      body := body }
  | .register .. =>
    { url := "http://localhost:8081/auth/register"
      method := "POST"
      headers := [("Content-Type", "application/json")]
      body := body }
  | .resetPassword token _ =>
    { url := "/auth/reset-password?token=" ++ token
      method := "POST"
      headers := [("Content-Type", "application/json")]
      body := body }
  | .getAllFilmes =>
    { url := "http://localhost:8081/api/filmes"
      method := "GET"
      credentials := some "include" }
  | .createFilme .. =>
    { url := "http://localhost:8081/api/filmes"
      method := "POST"
      headers := [("Content-Type", "application/json")]
      body := body
      credentials := some "include" }
  | .getFilmeById id =>
    { url := "http://localhost:8081/api/filmes/" ++ id
      method := "GET"
      credentials := some "include" }
  | .updateFilme id _ =>
    { url := "http://localhost:8081/api/filmes/" ++ id
      method := "PUT"
      headers := [("Content-Type", "application/json")]
      body := body
      credentials := some "include" }
  | .deleteFilme id =>
    { url := "http://localhost:8081/api/filmes/" ++ id
      method := "DELETE"
      credentials := some "include" }

/-- The events between decoding the body and returning it. -/
def Call.afterDecode : Call → JsVal → List Event
  | .createFilme .., data => [Event.consoleDebug "Resposta Servidor:" data]
  | _, _ => []

/-- The run of a call once its request is built, written out by cases on what
the transport does. -/
def exchangeWith (env : Env) (c : Call) (req : Request) : Run (Option JsVal) :=
  match env.fetch req with
  | .error e =>
    { log := [Event.fetch req, Event.consoleError c.logLabel e]
      outcome := .error e }
  | .ok response =>
    match response.ok, c.returnsBody, response.json with
    | false, _, _ =>
      { log := [Event.fetch req,
          Event.consoleError c.logLabel (newError (c.description ++ response.statusText))]
        outcome := .error (newError (c.description ++ response.statusText)) }
    | true, false, _ =>
      { log := [Event.fetch req]
        outcome := .ok none }
    | true, true, .ok data =>
      { log := Event.fetch req :: Event.json :: c.afterDecode data
        outcome := .ok (some data) }
    | true, true, .error e =>
      { log := [Event.fetch req, Event.json, Event.consoleError c.logLabel e]
        outcome := .error e }

/-- The run of a call: when `JSON.stringify` throws, the error is logged and
rethrown and `fetch` is not called; otherwise the request is sent. -/
def exchange (env : Env) (c : Call) : Run (Option JsVal) :=
  match c.serialised env with
  | .error e =>
    { log := [Event.consoleError c.logLabel e]
      outcome := .error e }
  | .ok body => exchangeWith env c (c.request body)

/-! ## Sample data

The scenarios of the specification and a browser-like platform, used to
instantiate the theorems. -/

/-- A text between double quotes; a double quote (character 34) or a
backslash (character 92) inside it gets a backslash in front. -/
def quoteText (s : String) : String :=
  "\"" ++ String.join (s.data.map fun ch =>
    if ch = Char.ofNat 34 ∨ ch = Char.ofNat 92 then "\\" ++ String.singleton ch
    else String.singleton ch) ++ "\""

/-- The texts joined by commas. -/
def joinComma : List String → String
  | [] => ""
  | [a] => a
  | a :: rest => a ++ "," ++ joinComma rest

mutual

/-- A serialiser that follows `JSON.stringify` on the samples: `undefined`
gives `undefined`, a BigInt or an object that contains itself makes it throw a
`TypeError`, an `undefined` array item is written as `null`, and a property
whose value is `undefined` is left out. -/
def sampleStringify : JsVal → Except JsError (Option String)
  | .undefined => .ok none
  | .null => .ok (some "null")
  | .bool true => .ok (some "true")
  | .bool false => .ok (some "false")
  | .num n => .ok (some (toString n))
  | .bigint _ =>
    .error { name := "TypeError", message := "Do not know how to serialize a BigInt" }
  | .str s => .ok (some (quoteText s))
  | .circular _ =>
    .error { name := "TypeError", message := "Converting circular structure to JSON" }
  | .arr items =>
    match sampleStringifyItems items with
    | .error e => .error e
    | .ok parts => .ok (some ("[" ++ joinComma parts ++ "]"))
  | .obj fields =>
    match sampleStringifyFields fields with
    | .error e => .error e
    | .ok parts => .ok (some ("\x7b" ++ joinComma parts ++ "\x7d"))

/-- The texts of the items of an array. -/
def sampleStringifyItems : List JsVal → Except JsError (List String)
  | [] => .ok []
  | value :: rest =>
    match sampleStringify value, sampleStringifyItems rest with
    | .error e, _ => .error e
    | _, .error e => .error e
    | .ok none, .ok parts => .ok ("null" :: parts)
    | .ok (some text), .ok parts => .ok (text :: parts)

/-- The texts of the properties of an object. -/
def sampleStringifyFields : List (String × JsVal) → Except JsError (List String)
  | [] => .ok []
  | (key, value) :: rest =>
    match sampleStringify value, sampleStringifyFields rest with
    | .error e, _ => .error e
    | _, .error e => .error e
    | .ok none, .ok parts => .ok parts
    | .ok (some text), .ok parts => .ok ((quoteText key ++ ":" ++ text) :: parts)

end

/-- The movie `{titulo: "Alien"}`. -/
def sampleFilme : JsVal :=
  .obj [("titulo", .str "Alien")]

/-- The movie `{ano: 1979n}`, whose year is a BigInt. -/
def bigIntFilme : JsVal :=
  .obj [("ano", .bigint 1979)]

/-- The movie `{generos: [undefined]}`. -/
def undefinedGenreFilme : JsVal :=
  .obj [("generos", .arr [.undefined])]

/-- The movie `{generos: [null]}`. -/
def nullGenreFilme : JsVal :=
  .obj [("generos", .arr [.null])]

/-- A decoder for the samples: it reads the text of `sampleFilme` back and
rejects every other text. -/
def sampleParse (text : String) : Except JsError JsVal :=
  if text = "\x7b\"titulo\":\"Alien\"\x7d" then .ok sampleFilme
  else .error { name := "SyntaxError", message := "Unexpected token" }

/-- A backend mock: every request settles the same way. -/
def mockEnv (settles : Except JsError Response) : Env :=
  { stringify := sampleStringify
    fetch := fun _ => settles }

/-- The call `login("a@b.com", "x")`. -/
def sampleLogin : Call :=
  .login (.str "a@b.com") (.str "x")

/-- The call `register("Ana", "a@b.com", 12345678901n, "x")`, whose `cpf` is a
BigInt. -/
def bigIntRegister : Call :=
  .register (.str "Ana") (.str "a@b.com") (.bigint 12345678901) (.str "x")

/-- The body `{"token": "abc"}`. -/
def tokenBody : JsVal :=
  .obj [("token", .str "abc")]

/-- The error `response.json()` rejects with on an empty body. -/
def emptyBodyError : JsError :=
  { name := "SyntaxError", message := "Unexpected end of JSON input" }

/-- The error `JSON.stringify` throws on a BigInt. -/
def bigIntError : JsError :=
  { name := "TypeError", message := "Do not know how to serialize a BigInt" }

/-- A response `200 OK` with the body `{"token": "abc"}`. -/
def okToken : Response :=
  { ok := true, statusText := "OK", json := .ok tokenBody }

/-- A response `500 Internal Server Error` with an empty body. -/
def serverError : Response :=
  { ok := false, statusText := "Internal Server Error", json := .error emptyBodyError }

/-- A response `404 Not Found` with the body `null`. -/
def notFound : Response :=
  { ok := false, statusText := "Not Found", json := .ok .null }

/-- A response `204 No Content`: success, and no body to decode. -/
def noContent : Response :=
  { ok := true, statusText := "No Content", json := .error emptyBodyError }

/-- A response `201 Created` with an empty body. -/
def createdEmpty : Response :=
  { ok := true, statusText := "Created", json := .error emptyBodyError }

/-- The error a browser rejects `fetch` with when the connection fails. -/
def failedToFetch : JsError :=
  { name := "TypeError", message := "Failed to fetch" }

/-! ## Lemmas -/

@[simp] theorem bind_run {α β : Type} (m : Js α) (f : α → Js β) (env : Env) :
    (m >>= f) env = Js.bind m f env := rfl

@[simp] theorem pure_run {α : Type} (a : α) (env : Env) :
    (Pure.pure a : Js α) env = Js.pure a env := rfl

/-- Every operation, run on any platform, is the common exchange. -/
theorem exec_eq_exchange (env : Env) (c : Call) : exec env c = exchange env c := by
  cases c <;>
    simp only [exec, exchange, exchangeWith, login, register, resetPassword, getAllFilmes,
      createFilme, getFilmeById, updateFilme, deleteFilme, Js.tryCatch, bind_run, Js.bind,
      stringify, fetch, Call.request, Call.logLabel, Call.description, Call.returnsBody,
      Call.afterDecode, Call.serialised, Call.payload] <;>
    first
      | (generalize env.stringify _ = b
         rcases b with e | b
         · simp [Run.resolved, consoleError, Js.raise, Js.bind]
         · simp only []
           generalize env.fetch _ = o
           rcases o with e | ⟨ok, st, js⟩
           · simp [Run.resolved, consoleError, consoleDebug, Js.raise, Js.bind, Js.pure,
               Response.readJson]
           · cases ok <;> cases js <;>
               simp [Run.resolved, consoleError, consoleDebug, Js.raise, Js.bind, Js.pure,
                 Response.readJson])
      | (generalize env.fetch _ = o
         rcases o with e | ⟨ok, st, js⟩
         · simp [Run.resolved, consoleError, consoleDebug, Js.raise, Js.bind, Js.pure,
             Response.readJson]
         · cases ok <;> cases js <;>
             simp [Run.resolved, consoleError, consoleDebug, Js.raise, Js.bind, Js.pure,
               Response.readJson])

theorem mentions_refl (s : String) : Mentions s s :=
  List.infix_refl _

theorem mentions_append_left (a b : String) : Mentions (a ++ b) a := by
  unfold Mentions
  rw [String.data_append]
  exact ⟨[], b.data, by simp⟩

theorem mentions_append_right (a b : String) : Mentions (a ++ b) b := by
  unfold Mentions
  rw [String.data_append]
  exact ⟨a.data, [], by simp⟩

/-- The thrown text is the logged label followed by one blank. -/
theorem description_eq_logLabel (c : Call) : c.description = c.logLabel ++ " " := by
  cases c <;> rfl

theorem specEndpoint_eq (body : Option String) (c : Call) :
    ((c.request body).method, (c.request body).url) = c.specEndpoint := by
  cases c <;> rfl

theorem credentials_eq (body : Option String) (c : Call) :
    (c.request body).credentials = if c.credentialed then some "include" else none := by
  cases c <;> rfl

theorem afterDecode_requests (c : Call) (data : JsVal) :
    (c.afterDecode data).filterMap (fun
      | .fetch req => some req
      | _ => none) = [] := by
  cases c <;> rfl

theorem afterDecode_errorLines (c : Call) (data : JsVal) :
    (c.afterDecode data).filterMap (fun
      | .consoleError label error => some (label, error)
      | _ => none) = [] := by
  cases c <;> rfl

theorem exchangeWith_requests (env : Env) (c : Call) (req : Request) :
    (exchangeWith env c req).requests = [req] := by
  unfold exchangeWith
  rcases env.fetch req with e | ⟨ok, st, js⟩
  · simp [Run.requests]
  · cases ok <;> cases hb : c.returnsBody <;> cases js <;>
      simp [Run.requests, afterDecode_requests]

/-- The requests of a run: none when `JSON.stringify` throws, else the one
request of the call. -/
theorem exec_requests (env : Env) (c : Call) :
    (exec env c).requests =
      match c.serialised env with
      | .error _ => []
      | .ok body => [c.request body] := by
  rw [exec_eq_exchange]
  unfold exchange
  rcases c.serialised env with e | body
  · simp [Run.requests]
  · simp [exchangeWith_requests]

/-- A run in which `fetch` settled is a run whose body was built. -/
theorem fetch_of_requests {env : Env} {c : Call} {o : Except JsError Response}
    (h : ∃ req ∈ (exec env c).requests, env.fetch req = o) :
    ∃ body, c.serialised env = .ok body ∧ env.fetch (c.request body) = o ∧
      exec env c = exchangeWith env c (c.request body) := by
  obtain ⟨req, hmem, hreq⟩ := h
  rw [exec_requests] at hmem
  rcases hs : c.serialised env with e | body
  · simp [hs] at hmem
  · simp [hs] at hmem
    subst hmem
    exact ⟨body, rfl, hreq, by rw [exec_eq_exchange]; simp [exchange, hs]⟩

/-- The body of a call depends on the platform through the serialiser only. -/
theorem serialised_congr {env env2 : Env} (c : Call) (h : env2.stringify = env.stringify) :
    c.serialised env2 = c.serialised env := by
  simp [Call.serialised, h]

/-! ## The claims -/

/-- Claim C1: for each of the seven operations that return the body, on every
platform where `fetch` resolved with a response whose `ok` is true and whose
body decodes to `B`, the operation resolves with exactly `B`. -/
theorem resolves_with_decoded_body (env : Env) (c : Call) (response : Response) (B : JsVal)
    (hbody : c.returnsBody = true)
    (hfetch : ∃ req ∈ (exec env c).requests, env.fetch req = .ok response)
    (hok : response.ok = true) (hjson : response.json = .ok B) :
    (exec env c).outcome = .ok (some B) := by
  obtain ⟨body, -, hf, hrun⟩ := fetch_of_requests hfetch
  rw [hrun]
  simp [exchangeWith, hf, hok, hbody, hjson]

/-- The scenario of the specification: `login` against a mock answering
`200` with `{"token": "abc"}` resolves with `{"token": "abc"}`. -/
theorem resolves_with_decoded_body_witness :
    (exec (mockEnv (.ok okToken)) sampleLogin).outcome = .ok (some tokenBody) :=
  resolves_with_decoded_body (mockEnv (.ok okToken)) sampleLogin okToken tokenBody
    rfl ⟨_, List.Mem.head _, rfl⟩ rfl rfl

/-- Claim C2: for each of the eight operations, when the response has `ok`
false and reason text `R`, the operation rejects with `new Error` of its fixed
description followed by `R`; the message contains `R`; `response.json()` is
never called; and a platform that differs only in the body of the response
(decodable or not) gives the same run, event for event. -/
theorem failure_status_raises (env : Env) (c : Call) (response : Response)
    (hfetch : ∃ req ∈ (exec env c).requests, env.fetch req = .ok response)
    (hok : response.ok = false) :
    (exec env c).outcome = .error (newError (c.description ++ response.statusText)) ∧
      Mentions (newError (c.description ++ response.statusText)).message response.statusText ∧
      (exec env c).bodyReads = 0 ∧
      ∀ (otherBody : Except JsError JsVal) (env2 : Env),
        env2.stringify = env.stringify →
        (∃ req ∈ (exec env2 c).requests,
          env2.fetch req = .ok { response with json := otherBody }) →
        exec env2 c = exec env c := by
  obtain ⟨body, hs, hf, hrun⟩ := fetch_of_requests hfetch
  refine ⟨?_, mentions_append_right _ _, ?_, ?_⟩
  · rw [hrun]
    simp [exchangeWith, hf, hok]
  · rw [hrun]
    simp [exchangeWith, hf, hok, Run.bodyReads]
  · intro otherBody env2 hst hfetch2
    obtain ⟨body2, hs2, hf2, hrun2⟩ := fetch_of_requests hfetch2
    rw [serialised_congr c hst, hs] at hs2
    cases hs2
    rw [hrun, hrun2]
    simp [exchangeWith, hf, hf2, hok]

/-- The scenario of the specification: `getAllFilmes` against a mock answering
`500 Internal Server Error` rejects with an error containing that text. -/
theorem failure_status_raises_witness :
    (exec (mockEnv (.ok serverError)) .getAllFilmes).outcome =
        .error (newError "Erro em pegar todos os filmes: Internal Server Error") ∧
      Mentions "Erro em pegar todos os filmes: Internal Server Error" "Internal Server Error" ∧
      (exec (mockEnv (.ok serverError)) .getAllFilmes).bodyReads = 0 ∧
      exec (mockEnv (.ok { serverError with json := .ok tokenBody })) .getAllFilmes =
        exec (mockEnv (.ok serverError)) .getAllFilmes :=
  ⟨(failure_status_raises (mockEnv (.ok serverError)) .getAllFilmes serverError
      ⟨_, List.Mem.head _, rfl⟩ rfl).1,
    (failure_status_raises (mockEnv (.ok serverError)) .getAllFilmes serverError
      ⟨_, List.Mem.head _, rfl⟩ rfl).2.1,
    (failure_status_raises (mockEnv (.ok serverError)) .getAllFilmes serverError
      ⟨_, List.Mem.head _, rfl⟩ rfl).2.2.1,
    (failure_status_raises (mockEnv (.ok serverError)) .getAllFilmes serverError
      ⟨_, List.Mem.head _, rfl⟩ rfl).2.2.2 (.ok tokenBody)
      (mockEnv (.ok { serverError with json := .ok tokenBody })) rfl
      ⟨_, List.Mem.head _, rfl⟩⟩

/-- Claim C3: for each of the eight operations, when `fetch` rejects with the
error `E`, the operation rejects with `E` itself, so the message of the raised
error contains the description of the transport error. -/
theorem transport_error_propagates (env : Env) (c : Call) (E : JsError)
    (hfetch : ∃ req ∈ (exec env c).requests, env.fetch req = .error E) :
    (exec env c).outcome = .error E ∧
      ∀ e, (exec env c).outcome = .error e → Mentions e.message E.message := by
  obtain ⟨body, -, hf, hrun⟩ := fetch_of_requests hfetch
  rw [hrun]
  simp [exchangeWith, hf, mentions_refl]

/-- A refused connection on `deleteFilme("42")` is raised unchanged. -/
theorem transport_error_propagates_witness :
    (exec (mockEnv (.error failedToFetch)) (.deleteFilme "42")).outcome =
      .error failedToFetch :=
  (transport_error_propagates (mockEnv (.error failedToFetch)) (.deleteFilme "42")
    failedToFetch ⟨_, List.Mem.head _, rfl⟩).1

/-- Claim C4 as stated fails: when the connection is refused, `login` rejects
with the transport error, whose message `Failed to fetch` does not contain the
description `Error during login:` of the operation. -/
theorem transport_error_does_not_name_operation :
    (∀ req ∈ (exec (mockEnv (.error failedToFetch)) sampleLogin).requests,
        (mockEnv (.error failedToFetch)).fetch req = .error failedToFetch) ∧
      (exec (mockEnv (.error failedToFetch)) sampleLogin).requests.length = 1 ∧
      (exec (mockEnv (.error failedToFetch)) sampleLogin).outcome = .error failedToFetch ∧
      ¬ Mentions failedToFetch.message sampleLogin.description ∧
      ¬ Mentions failedToFetch.message sampleLogin.logLabel :=
  ⟨fun _ _ => rfl, rfl, rfl, by decide, by decide⟩

/-- Claim C4, amended: for each of the eight operations, after a response with
`ok` false the raised message contains the description of the operation and
the reason text; after a transport failure the raised error is the transport
error, its message contains the description of the transport error, and the
operation is named by the one `console.error` line, which carries the label of
the operation and the raised error. -/
theorem failure_message_content (env : Env) (c : Call) :
    (∀ response : Response,
        (∃ req ∈ (exec env c).requests, env.fetch req = .ok response) →
        response.ok = false →
        ∃ e, (exec env c).outcome = .error e ∧
          Mentions e.message c.description ∧ Mentions e.message c.logLabel ∧
          Mentions e.message response.statusText) ∧
      (∀ E : JsError,
        (∃ req ∈ (exec env c).requests, env.fetch req = .error E) →
        ∃ e, (exec env c).outcome = .error e ∧ e = E ∧
          Mentions e.message E.message ∧
          (exec env c).errorLines = [(c.logLabel, e)]) := by
  constructor
  · intro response hfetch hok
    obtain ⟨body, -, hf, hrun⟩ := fetch_of_requests hfetch
    refine ⟨newError (c.description ++ response.statusText), ?_,
      mentions_append_left _ _, ?_, mentions_append_right _ _⟩
    · rw [hrun]
      simp [exchangeWith, hf, hok]
    · show Mentions (c.description ++ response.statusText) c.logLabel
      rw [description_eq_logLabel, String.append_assoc]
      exact mentions_append_left _ _
  · intro E hfetch
    obtain ⟨body, -, hf, hrun⟩ := fetch_of_requests hfetch
    refine ⟨E, ?_, rfl, mentions_refl _, ?_⟩ <;>
      · rw [hrun]
        simp [exchangeWith, hf, Run.errorLines]

/-- On `getFilmeById` a `404 Not Found` gives a message with the description
and the reason text; on `login` a refused connection gives the transport error,
named by the `console.error` line only. -/
theorem failure_message_content_witness :
    (∃ e, (exec (mockEnv (.ok notFound)) (.getFilmeById "42")).outcome = .error e ∧
        Mentions e.message "Error fetching filme: " ∧
        Mentions e.message "Error fetching filme:" ∧
        Mentions e.message "Not Found") ∧
      (∃ e, (exec (mockEnv (.error failedToFetch)) sampleLogin).outcome = .error e ∧
        e = failedToFetch ∧ Mentions e.message "Failed to fetch" ∧
        (exec (mockEnv (.error failedToFetch)) sampleLogin).errorLines =
          [("Error during login:", e)]) :=
  ⟨(failure_message_content (mockEnv (.ok notFound)) (.getFilmeById "42")).1 notFound
      ⟨_, List.Mem.head _, rfl⟩ rfl,
    (failure_message_content (mockEnv (.error failedToFetch)) sampleLogin).2 failedToFetch
      ⟨_, List.Mem.head _, rfl⟩⟩

/-- Claim C5: every request built by one of the five movie operations has
`credentials` set to `include`, and every request built by `login`, `register`
or `resetPassword` has no `credentials` option.  The requests of a run are
this one request, or none when `JSON.stringify` threw on the body. -/
theorem credentials_only_on_movie_operations (env : Env) (c : Call) :
    (exec env c).requests.map (fun req => req.credentials) =
      match c.payload with
      | none => [if c.credentialed then some "include" else none]
      | some value =>
        match env.stringify value with
        | .error _ => []
        | .ok _ => [if c.credentialed then some "include" else none] := by
  rw [exec_requests]
  unfold Call.serialised
  cases c.payload with
  | none => simp [credentials_eq]
  | some value =>
    simp only []
    rcases env.stringify value with e | body <;> simp [credentials_eq]

/-- Claim C6 as stated fails: `register` with a BigInt `cpf` makes
`JSON.stringify` throw inside the `try` block, so `fetch` is never called: the
run issues no request and rejects with the `TypeError`. -/
theorem no_request_when_serialising_throws :
    (exec (mockEnv (.ok okToken)) bigIntRegister).requests = [] ∧
      (exec (mockEnv (.ok okToken)) bigIntRegister).outcome = .error bigIntError :=
  ⟨rfl, rfl⟩

/-- Claim C6, amended: on every platform each operation calls `fetch` at most
once: exactly once, with the verb and the target of its endpoint, unless the
operation has a body and `JSON.stringify` throws on it, in which case `fetch`
is not called.  The operations without a body (`getAllFilmes`, `getFilmeById`,
`deleteFilme`) always call it exactly once. -/
theorem one_request_to_endpoint (env : Env) (c : Call) :
    (exec env c).requests.map (fun req => (req.method, req.url)) =
      match c.payload with
      | none => [c.specEndpoint]
      | some value =>
        match env.stringify value with
        | .error _ => []
        | .ok _ => [c.specEndpoint] := by
  rw [exec_requests]
  unfold Call.serialised
  cases c.payload with
  | none => simp [specEndpoint_eq]
  | some value =>
    simp only []
    rcases env.stringify value with e | body <;> simp [specEndpoint_eq]

/-- Claim C7 as stated fails.  For the movie `{ano: 1979n}`, `JSON.stringify`
throws and neither `createFilme` nor `updateFilme` sends a request, so there is
no body.  The movies `{generos: [undefined]}` and `{generos: [null]}` differ
and are sent with the same body, so decoding it cannot give back both.  For
`createFilme(undefined)` the request has no body. -/
theorem movie_body_not_always_decodable :
    (createFilme bigIntFilme (mockEnv (.ok createdEmpty))).requests = [] ∧
      (updateFilme "42" bigIntFilme (mockEnv (.ok createdEmpty))).requests = [] ∧
      (createFilme undefinedGenreFilme (mockEnv (.ok createdEmpty))).requests.map
        (fun req => req.body) = [some "\x7b\"generos\":[null]\x7d"] ∧
      (createFilme nullGenreFilme (mockEnv (.ok createdEmpty))).requests.map
        (fun req => req.body) = [some "\x7b\"generos\":[null]\x7d"] ∧
      undefinedGenreFilme ≠ nullGenreFilme ∧
      (createFilme .undefined (mockEnv (.ok createdEmpty))).requests.map
        (fun req => req.body) = [none] :=
  ⟨rfl, rfl, rfl, rfl, by simp [undefinedGenreFilme, nullGenreFilme], rfl⟩

/-- Claim C7, amended: for `createFilme` and `updateFilme`, for every value
passed as the movie and every id, the body of the outgoing request is what
`JSON.stringify` returns for that value: its text, or no body when it returns
`undefined`; when it throws, no request goes out.  Hence decoding the body
yields the input exactly when `JSON.stringify` returns a text that the decoder
reads back to the input. -/
theorem movie_body_is_serialised_input (env : Env) (parse : String → Except JsError JsVal)
    (id : String) (filmeDTO : JsVal) :
    ((createFilme filmeDTO env).requests.map (fun req => req.body) =
        match env.stringify filmeDTO with
        | .error _ => []
        | .ok body => [body]) ∧
      ((updateFilme id filmeDTO env).requests.map (fun req => req.body) =
        match env.stringify filmeDTO with
        | .error _ => []
        | .ok body => [body]) ∧
      ((createFilme filmeDTO env).requests.map (fun req => req.body.map parse) =
          [some (.ok filmeDTO)] ↔
        ∃ text, env.stringify filmeDTO = .ok (some text) ∧ parse text = .ok filmeDTO) ∧
      ((updateFilme id filmeDTO env).requests.map (fun req => req.body.map parse) =
          [some (.ok filmeDTO)] ↔
        ∃ text, env.stringify filmeDTO = .ok (some text) ∧ parse text = .ok filmeDTO) := by
  have hc : (createFilme filmeDTO env).requests = _ := exec_requests env (.createFilme filmeDTO)
  have hu : (updateFilme id filmeDTO env).requests = _ :=
    exec_requests env (.updateFilme id filmeDTO)
  rw [hc, hu]
  simp only [Call.serialised, Call.payload]
  rcases env.stringify filmeDTO with e | body
  · simp
  · cases body <;> simp [Call.request]

/-- The movie `{titulo: "Alien"}` sent by `createFilme` and by
`updateFilme("42", ...)` is read back from the body. -/
theorem movie_body_is_serialised_input_witness :
    (createFilme sampleFilme (mockEnv (.ok createdEmpty))).requests.map
        (fun req => req.body.map sampleParse) = [some (.ok sampleFilme)] ∧
      (updateFilme "42" sampleFilme (mockEnv (.ok createdEmpty))).requests.map
        (fun req => req.body.map sampleParse) = [some (.ok sampleFilme)] :=
  ⟨(movie_body_is_serialised_input (mockEnv (.ok createdEmpty)) sampleParse "42"
      sampleFilme).2.2.1.mpr ⟨_, rfl, rfl⟩,
    (movie_body_is_serialised_input (mockEnv (.ok createdEmpty)) sampleParse "42"
      sampleFilme).2.2.2.mpr ⟨_, rfl, rfl⟩⟩

/-- Claim C8: for every id and every response whose `ok` is true, `deleteFilme`
resolves with no value and never calls `response.json()`, whatever the body
is. -/
theorem deleteFilme_resolves_without_reading (env : Env) (id : String) (response : Response)
    (hfetch : ∀ req ∈ (deleteFilme id env).requests, env.fetch req = .ok response)
    (hok : response.ok = true) :
    (deleteFilme id env).outcome = .ok () ∧ (deleteFilme id env).bodyReads = 0 := by
  have hreq : (deleteFilme id env).requests = [Call.request none (.deleteFilme id)] :=
    exec_requests env (.deleteFilme id)
  have hf : env.fetch (Call.request none (.deleteFilme id)) = .ok response :=
    hfetch _ (by rw [hreq]; exact List.mem_singleton_self _)
  have h := exec_eq_exchange env (.deleteFilme id)
  simp only [exec, exchange, exchangeWith, Call.serialised, Call.payload, hf, hok,
    Call.returnsBody] at h
  have hlog : (deleteFilme id env).log = [Event.fetch (Call.request none (.deleteFilme id))] :=
    congrArg Run.log h
  have hout := congrArg Run.outcome h
  constructor
  · cases ho : (deleteFilme id env).outcome with
    | ok u => rfl
    | error e => simp [Run.resolved, ho] at hout
  · simp [Run.bodyReads, hlog]

/-- The scenario of the specification: `deleteFilme("42")` against a mock
answering `204 No Content` resolves with no value, after one `DELETE` to a
target that ends in `42`. -/
theorem deleteFilme_resolves_without_reading_witness :
    (deleteFilme "42" (mockEnv (.ok noContent))).outcome = .ok () ∧
      (deleteFilme "42" (mockEnv (.ok noContent))).bodyReads = 0 ∧
      (deleteFilme "42" (mockEnv (.ok noContent))).requests.map
        (fun req => (req.method, req.url)) = [("DELETE", "http://localhost:8081/api/filmes/42")] :=
  ⟨(deleteFilme_resolves_without_reading (mockEnv (.ok noContent)) "42" noContent
      (fun _ _ => rfl) rfl).1,
    (deleteFilme_resolves_without_reading (mockEnv (.ok noContent)) "42" noContent
      (fun _ _ => rfl) rfl).2,
    rfl⟩

/-- Claim C9: for each of the eight operations, a run that rejects with `e` has
exactly one `console.error` line, it is the last event of the run, and it
carries the label of the operation (the description without its final blank)
and `e` itself; a run that resolves has no `console.error` line. -/
theorem error_line_exactly_when_raised (env : Env) (c : Call) :
    c.description = c.logLabel ++ " " ∧
      match (exec env c).outcome with
      | .error e =>
        (exec env c).errorLines = [(c.logLabel, e)] ∧
          (exec env c).log.getLast? = some (Event.consoleError c.logLabel e)
      | .ok _ => (exec env c).errorLines = [] := by
  refine ⟨description_eq_logLabel c, ?_⟩
  rw [exec_eq_exchange]
  unfold exchange
  rcases c.serialised env with e | body
  · simp [Run.errorLines]
  · simp only []
    unfold exchangeWith
    rcases env.fetch (c.request body) with e | ⟨ok, st, js⟩
    · simp [Run.errorLines]
    · cases ok <;> cases hb : c.returnsBody <;> cases js <;>
        simp [Run.errorLines, afterDecode_errorLines]

/-- Claim C10: for each of the seven operations that return the body, when the
status is a success and `response.json()` rejects with `D`, the operation
rejects with `D` after one `console.error` line carrying `D`; and an operation
resolves exactly when `fetch` resolved with a response whose `ok` is true and,
unless the operation is `deleteFilme`, whose body decoded. -/
theorem decode_failure_raises (env : Env) (c : Call) :
    (∀ (response : Response) (D : JsError),
        c.returnsBody = true →
        (∃ req ∈ (exec env c).requests, env.fetch req = .ok response) →
        response.ok = true → response.json = .error D →
        (exec env c).outcome = .error D ∧
          (exec env c).errorLines = [(c.logLabel, D)] ∧
          (exec env c).log.getLast? = some (Event.consoleError c.logLabel D)) ∧
      ((∃ v, (exec env c).outcome = .ok v) ↔
        ∃ req ∈ (exec env c).requests, ∃ response : Response,
          env.fetch req = .ok response ∧ response.ok = true ∧
            (c.returnsBody = true → ∃ B, response.json = .ok B)) := by
  constructor
  · intro response D hbody hfetch hok hjson
    obtain ⟨body, -, hf, hrun⟩ := fetch_of_requests hfetch
    rw [hrun]
    simp [exchangeWith, hf, hok, hbody, hjson, Run.errorLines]
  · rw [exec_requests, exec_eq_exchange]
    unfold exchange
    rcases c.serialised env with e | body
    · simp
    · simp only []
      rcases hq : env.fetch (c.request body) with e | ⟨ok, st, js⟩
      · simp [exchangeWith, hq]
      · cases ok <;> cases hb : c.returnsBody <;> cases js <;> simp [exchangeWith, hq, hb]

/-- An empty body on the `201` that answers `createFilme` makes the operation
reject with the decoding error. -/
theorem decode_failure_raises_witness :
    (exec (mockEnv (.ok createdEmpty)) (.createFilme sampleFilme)).outcome =
        .error emptyBodyError ∧
      (exec (mockEnv (.ok createdEmpty)) (.createFilme sampleFilme)).errorLines =
        [("Erro criando o filme:", emptyBodyError)] :=
  ⟨((decode_failure_raises (mockEnv (.ok createdEmpty)) (.createFilme sampleFilme)).1
      createdEmpty emptyBodyError rfl ⟨_, List.Mem.head _, rfl⟩ rfl rfl).1,
    ((decode_failure_raises (mockEnv (.ok createdEmpty)) (.createFilme sampleFilme)).1
      createdEmpty emptyBodyError rfl ⟨_, List.Mem.head _, rfl⟩ rfl rfl).2.1⟩

end MoviesList
